import Mathlib

/-
Verification development for the pyextinction library (dust extinction laws).
Python floats are modelled as real numbers; numpy 1-d arrays as lists of reals;
optional (None-able) arguments as `Option`; raised exceptions as `Except` errors.
External collaborators (scipy's cubic-spline fit `splrep`/`splev`, the unit
subsystem) are not part of this repository: the spline evaluator is taken as an
explicit function parameter, and wavelength inputs are taken already stripped to
their angstrom magnitudes, exactly as each `function` body sees them after
`val_in_unit(...).magnitude`.
-/

noncomputable section

/-- Kinds of Python exceptions raised by the library code. -/
inductive PyErr where
  | typeError (msg : String)
  | valueError (msg : String)
deriving DecidableEq, Repr

/-- Small model of the Python class universe relevant to `isNestedInstance`:
the `ExtinctionLaw` hierarchy of this package plus representative non-law
classes. -/
inductive PyClass where
  | extinctionLaw
  | cardelli
  | calzetti
  | fitzpatrick99
  | gordon03SMCBar
  | mixtureLaw
  | intClass
  | noneType
deriving DecidableEq, Repr

/-- Python `issubclass` on the modelled class universe: the four concrete laws
and `MixtureLaw` are (direct) subclasses of `ExtinctionLaw`; every class is a
subclass of itself; `int` and `NoneType` are unrelated to the hierarchy. -/
def issubclassB (c parent : PyClass) : Bool :=
  (c == parent) ||
    (parent == PyClass.extinctionLaw &&
      (c == PyClass.cardelli || c == PyClass.calzetti ||
       c == PyClass.fitzpatrick99 || c == PyClass.gordon03SMCBar ||
       c == PyClass.mixtureLaw))

/-- Model of a Python object as seen by the mixture constructor: its class and
its `name` attribute (only read when the object is a law). -/
structure PyObj where
  cls : PyClass
  name : String
deriving DecidableEq, Repr

/-- Model of `helpers.isNestedInstance(obj, cl)`.  In the source,
`hasattr(cl, '__subclasses')` is always False (classes expose `__subclasses__`,
with trailing underscores), so `tree = [cl]` and the test reduces to
`issubclass(obj.__class__, (cl,))`, i.e. plain `isinstance`. -/
def isNestedInstance (obj : PyObj) (cl : PyClass) : Bool :=
  issubclassB obj.cls cl

/-- Result of a successful `MixtureLaw.__init__`: the stored components and the
derived `name` attribute. -/
structure MixtureObj where
  A : PyObj
  B : PyObj
  name : String
deriving DecidableEq, Repr

/-- Model of `MixtureLaw.__init__(A, B, name=None)` (with the default
`name=None`, so the composed name is always used): raises
`ValueError('Expecting ExtinctionLaw instances')` unless both arguments pass
`isNestedInstance(_, ExtinctionLaw)`; otherwise stores A, B and the name
`'(' + A.name + ', ' + B.name + ')'`. -/
def MixtureLaw.init (A B : PyObj) : Except PyErr MixtureObj :=
  if isNestedInstance A PyClass.extinctionLaw &&
      isNestedInstance B PyClass.extinctionLaw then
    Except.ok ⟨A, B, "(" ++ A.name ++ ", " ++ B.name ++ ")"⟩
  else
    Except.error (PyErr.valueError "Expecting ExtinctionLaw instances")

/-- Model of `ExtinctionLaw.__add__(self, other)`, which simply returns
`MixtureLaw(A=self, B=other)` (so `lawA + lawB` runs the mixture constructor,
including its argument check). -/
def ExtinctionLaw.add (self other : PyObj) : Except PyErr MixtureObj :=
  MixtureLaw.init self other

/-- Boolean test asking whether an `Except` value is a raised `TypeError`. -/
def isTypeError {α : Type} : Except PyErr α → Bool
  | Except.error (PyErr.typeError _) => true
  | _ => false

/-- Boolean test asking whether an `Except` value is a raised exception. -/
def isRaised {α : Type} : Except PyErr α → Bool
  | Except.error _ => true
  | _ => false

/-- Model of `MixtureLaw.get_Rv_A(Rv, f_A, Rv_B)` on the paths where `Rv_B` is
passed explicitly (as in every internal call): the literal formula
`1. / (1. / (Rv * f_A) - (1. - f_A) / (f_A * Rv_B))`. -/
def get_Rv_A (Rv f_A Rv_B : ℝ) : ℝ :=
  1 / (1 / (Rv * f_A) - (1 - f_A) / (f_A * Rv_B))

/-- Model of `MixtureLaw.get_Rv(Rv_A, f_A, Rv_B)` with both component values
passed explicitly: `1. / (f_A / Rv_A + (1 - f_A) / Rv_B)`. -/
def get_Rv (Rv_A f_A Rv_B : ℝ) : ℝ :=
  1 / (f_A / Rv_A + (1 - f_A) / Rv_B)

/-- Model of `MixtureLaw.get_Rv_B(Rv, Rv_A, f_A)` with `Rv_A` passed
explicitly: `(1. - f_A) / (1. / Rv - f_A / Rv_A)`. -/
def get_Rv_B (Rv Rv_A f_A : ℝ) : ℝ :=
  (1 - f_A) / (1 / Rv - f_A / Rv_A)

/-- Functional view of an extinction law as consumed by `MixtureLaw`:
`RvDefault` models the optional instance attribute `Rv` (read through
`getattr(law, 'Rv', None)` / `hasattr`), and `f lamb Av Rv Alambda` models
`law.function(lamb, Av=Av, Rv=Rv, Alambda=Alambda)` on unit-stripped
angstrom wavelengths. -/
structure Law where
  RvDefault : Option ℝ
  f : List ℝ → ℝ → ℝ → Bool → List ℝ

/-- Model of the statement `if v is None: v = d` (equivalently
`getattr`-with-default filling of an optional argument). -/
def resolveOpt (v d : Option ℝ) : Option ℝ :=
  match v with
  | some x => some x
  | none => d

/-- Model of `MixtureLaw.function(lamb, Av, Rv_A, Alambda, f_A, Rv_B, Rv)`:
first `Rv_A`/`Rv_B` fall back to the component laws' own `Rv` attribute; if at
least two of the three R(V) values are still missing it raises
`ValueError('Must provide at least 2 Rv values')`; otherwise the single missing
component value (if any) is derived with `get_Rv_A`/`get_Rv_B` and the result
is the per-element weighted sum
`f_A * A.function(lamb, Av, Rv_A, Alambda) + (1-f_A) * B.function(lamb, Av, Rv_B, Alambda)`. -/
def mixtureFunction (A B : Law) (lamb : List ℝ) (Av : ℝ) (Rv_A : Option ℝ)
    (Alambda : Bool) (f_A : ℝ) (Rv_B : Option ℝ) (Rv : Option ℝ) :
    Except PyErr (List ℝ) :=
  match resolveOpt Rv_A A.RvDefault, resolveOpt Rv_B B.RvDefault, Rv with
  | some a, some b, _ =>
      Except.ok (List.zipWith (fun u v => f_A * u + (1 - f_A) * v)
        (A.f lamb Av a Alambda) (B.f lamb Av b Alambda))
  | none, some b, some r =>
      Except.ok (List.zipWith (fun u v => f_A * u + (1 - f_A) * v)
        (A.f lamb Av (get_Rv_A r f_A b) Alambda) (B.f lamb Av b Alambda))
  | some a, none, some r =>
      Except.ok (List.zipWith (fun u v => f_A * u + (1 - f_A) * v)
        (A.f lamb Av a Alambda) (B.f lamb Av (get_Rv_B r a f_A) Alambda))
  | _, _, _ => Except.error (PyErr.valueError "Must provide at least 2 Rv values")

/-- Number of values among {Rv_A, Rv_B, Rv} that are resolvable in a mixture
call: an explicitly passed value counts, and a missing `Rv_A`/`Rv_B` falls back
to the corresponding component law's own default `Rv` attribute. -/
def resolvableRvCount (A B : Law) (Rv_A Rv_B Rv : Option ℝ) : ℕ :=
  (if (resolveOpt Rv_A A.RvDefault).isSome then 1 else 0) +
    (if (resolveOpt Rv_B B.RvDefault).isSome then 1 else 0) +
    (if Rv.isSome then 1 else 0)

/-- Resolution of the full R(V) triple `(Rv_A, Rv_B, Rv)` as performed by
`MixtureLaw.isvalid`: attribute fallback for the component values, `none` when
fewer than two of the three are known, and otherwise the single missing value
derived through `get_Rv_A` / `get_Rv` / `get_Rv_B`. -/
def resolveRvTriple (A B : Law) (Rv : Option ℝ) (f_A : ℝ)
    (Rv_A Rv_B : Option ℝ) : Option (ℝ × ℝ × ℝ) :=
  match resolveOpt Rv_A A.RvDefault, resolveOpt Rv_B B.RvDefault, Rv with
  | some a, some b, some r => some (a, b, r)
  | none, some b, some r => some (get_Rv_A r f_A b, b, r)
  | some a, some b, none => some (a, b, get_Rv a f_A b)
  | some a, none, some r => some (a, get_Rv_B r a f_A, r)
  | _, _, _ => none

/-- Final range test of `MixtureLaw.isvalid`: `f_A` must be a fraction and all
three R(V) values must lie in [2.0, 6.0]. -/
def rvRangeCheck (f_A a b r : ℝ) : Bool :=
  decide ((0 ≤ f_A ∧ f_A ≤ 1) ∧ (2 ≤ b ∧ b ≤ 6) ∧ (2 ≤ a ∧ a ≤ 6) ∧
    (2 ≤ r ∧ r ≤ 6))

/-- Model of `MixtureLaw.isvalid(Av, Rv, f_A, Rv_A, Rv_B)`: resolves the R(V)
triple like `function` does (returning False when fewer than two values are
known, deriving the missing one otherwise) and then checks `f_A ∈ [0, 1]` and
all three R(V) values in [2.0, 6.0]. `Av` is accepted and ignored, as in the
source. -/
def mixtureIsvalid (A B : Law) (Av : Option ℝ) (Rv : Option ℝ) (f_A : ℝ)
    (Rv_A Rv_B : Option ℝ) : Bool :=
  match resolveOpt Rv_A A.RvDefault, resolveOpt Rv_B B.RvDefault, Rv with
  | some a, some b, some r => rvRangeCheck f_A a b r
  | none, some b, some r => rvRangeCheck f_A (get_Rv_A r f_A b) b r
  | some a, some b, none => rvRangeCheck f_A a b (get_Rv a f_A b)
  | some a, none, some r => rvRangeCheck f_A a (get_Rv_B r a f_A) r
  | _, _, _ => false

/-- Coefficient `a(x)` of `Cardelli.function` as a function of the wavenumber
`x = 1e4 / lamb`.  The source fills a zero array segment by segment; at the
shared boundary points x = 3.3 and x = 8.0 the later assignment wins, which the
if-chain below reproduces by testing the later segments first.  Outside
[0.3, 10.0] the value stays 0 (both from the zero initialisation and from the
explicit final zeroing of x > 10 and x < 0.3). -/
def cardelli_a (x : ℝ) : ℝ :=
  if 8.0 ≤ x ∧ x ≤ 10.0 then
    -1.073 - 0.628 * (x - 8) + 0.137 * (x - 8) ^ 2 - 0.070 * (x - 8) ^ 3
  else if 3.3 ≤ x ∧ x ≤ 8.0 then
    (1.752 - 0.316 * x - 0.104 / ((x - 4.67) ^ 2 + 0.341)) +
      (if 5.9 ≤ x then -0.04473 * (x - 5.9) ^ 2 - 0.009779 * (x - 5.9) ^ 3
       else 0)
  else if 1.1 ≤ x ∧ x ≤ 3.3 then
    1 + 0.17699 * (x - 1.82) - 0.50447 * (x - 1.82) ^ 2 -
      0.02427 * (x - 1.82) ^ 3 + 0.72085 * (x - 1.82) ^ 4 +
      0.01979 * (x - 1.82) ^ 5 - 0.77530 * (x - 1.82) ^ 6 +
      0.32999 * (x - 1.82) ^ 7
  else if 0.3 ≤ x ∧ x < 1.1 then
    0.574 * x ^ (1.61 : ℝ)
  else 0

/-- Coefficient `b(x)` of `Cardelli.function`, translated like `cardelli_a`. -/
def cardelli_b (x : ℝ) : ℝ :=
  if 8.0 ≤ x ∧ x ≤ 10.0 then
    13.670 + 4.257 * (x - 8) + 0.420 * (x - 8) ^ 2 + 0.374 * (x - 8) ^ 3
  else if 3.3 ≤ x ∧ x ≤ 8.0 then
    (-3.090 + 1.825 * x + 1.206 / ((x - 4.62) ^ 2 + 0.263)) +
      (if 5.9 ≤ x then 0.21300 * (x - 5.9) ^ 2 + 0.120700 * (x - 5.9) ^ 3
       else 0)
  else if 1.1 ≤ x ∧ x ≤ 3.3 then
    1.41338 * (x - 1.82) + 2.28305 * (x - 1.82) ^ 2 +
      1.07233 * (x - 1.82) ^ 3 - 5.38434 * (x - 1.82) ^ 4 -
      0.62251 * (x - 1.82) ^ 5 + 5.30260 * (x - 1.82) ^ 6 -
      2.09002 * (x - 1.82) ^ 7
  else if 0.3 ≤ x ∧ x < 1.1 then
    -0.527 * x ^ (1.61 : ℝ)
  else 0

/-- Per-element value of `Cardelli.function` at wavelength `lamb` (angstrom):
wavenumber `x = 1e4 / lamb`, then `(a + b/Rv) * Av` when `Alambda` and
`0.4 * log(10) * (a + b/Rv) * Av` otherwise. -/
def cardelli_point (lamb Av Rv : ℝ) (Alambda : Bool) : ℝ :=
  if Alambda then
    (cardelli_a (1e4 / lamb) + cardelli_b (1e4 / lamb) / Rv) * Av
  else
    0.4 * Real.log 10 * (cardelli_a (1e4 / lamb) + cardelli_b (1e4 / lamb) / Rv) * Av

/-- Model of `Cardelli.function` on a 1-d wavelength array (angstrom
magnitudes); all numpy operations in the source act element-wise. -/
def cardelli_function (lamb : List ℝ) (Av Rv : ℝ) (Alambda : Bool) : List ℝ :=
  lamb.map (fun l => cardelli_point l Av Rv Alambda)

/-- Per-element `k` value of `Calzetti.function`: the wavelength is first
rescaled to micrometers (`_lamb *= 1e-4`), `x = 1 / _lamb`, and `k` is the
two-segment fit offset by `+Rv`; wavelengths outside [0.0912, 2.2] micrometers
keep the zero-initialised value. -/
def calzetti_kpoint (lamb Rv : ℝ) : ℝ :=
  if 0.630 ≤ lamb * 1e-4 ∧ lamb * 1e-4 ≤ 2.2 then
    2.659 * (-1.857 + 1.040 * (1 / (lamb * 1e-4))) + Rv
  else if 0.0912 ≤ lamb * 1e-4 ∧ lamb * 1e-4 < 0.630 then
    2.659 * (-2.156 + 1.509 * (1 / (lamb * 1e-4)) -
      0.198 * (1 / (lamb * 1e-4)) ^ 2 + 0.011 * (1 / (lamb * 1e-4)) ^ 3) + Rv
  else 0

/-- Model of the `k` array of `Calzetti.function`. -/
def calzetti_k (lamb : List ℝ) (Rv : ℝ) : List ℝ :=
  lamb.map (fun l => calzetti_kpoint l Rv)

/-- Model of `Calzetti.function`: returns `0.4 * k` when `Alambda` and
`10 ** (0.4 * k)` otherwise.  The `Av` argument is accepted but never used by
the source body. -/
def calzetti_function (lamb : List ℝ) (Av Rv : ℝ) (Alambda : Bool) : List ℝ :=
  if Alambda then (calzetti_k lamb Rv).map (fun k => 0.4 * k)
  else (calzetti_k lamb Rv).map (fun k => (10 : ℝ) ^ (0.4 * k))

/-- Type of the external spline collaborator (scipy `splrep` + `splev`): from
the interpolation data (list of knot abscissa/ordinate pairs) and an
evaluation point to the interpolated value. -/
def SplFn : Type := List (ℝ × ℝ) → ℝ → ℝ

/-- UV cutoff wavenumber `xcutuv = 10000.0 / 2700.` shared by Fitzpatrick99
and Gordon03_SMCBar. -/
def xcutuv : ℝ := 10000.0 / 2700

/-- Coefficient `c2` of `Fitzpatrick99.function`. -/
def f99_c2 (Rv : ℝ) : ℝ := -0.824 + 4.717 / Rv

/-- Coefficient `c1` of `Fitzpatrick99.function`. -/
def f99_c1 (Rv : ℝ) : ℝ := 2.030 - 3.007 * f99_c2 Rv

/-- UV branch value of `Fitzpatrick99.function` before the FUV correction and
the `+Rv` shift (with `c3 = 3.23`, `x0 = 4.596`, `gamma = 0.99`). -/
def f99_uv (Rv x : ℝ) : ℝ :=
  f99_c1 Rv + f99_c2 Rv * x +
    3.23 * x ^ 2 / ((x ^ 2 - 4.596 ^ 2) ^ 2 + 0.99 ^ 2 * x ^ 2)

/-- FUV polynomial correction applied for `x >= 5.9` in `Fitzpatrick99.function`
(with `c4 = 0.41`). -/
def f99_fuv (x : ℝ) : ℝ :=
  0.41 * (0.5392 * (x - 5.9) ^ 2 + 0.05644 * (x - 5.9) ^ 3)

/-- Optical/NIR spline anchor abscissas `xsplopir` of `Fitzpatrick99.function`. -/
def f99_xsplopir : List ℝ :=
  [0, 10000 / 26500, 10000 / 12200, 10000 / 6000, 10000 / 5470,
   10000 / 4670, 10000 / 4110]

/-- Optical/NIR spline anchor ordinates `ysplopir` of `Fitzpatrick99.function`:
the first three scaled by `Rv / 3.1`, the last four given by fixed polynomials
in `Rv` (`np.poly1d` evaluations, the last with its coefficient list
reversed). -/
def f99_ysplopir (Rv : ℝ) : List ℝ :=
  [0 * Rv / 3.1, 0.26469 * Rv / 3.1, 0.82925 * Rv / 3.1,
   2.13572e-4 * Rv ^ 2 + 1.00270 * Rv - 4.22809e-1,
   -7.35778e-5 * Rv ^ 2 + 1.00216 * Rv - 5.13540e-2,
   -3.32598e-5 * Rv ^ 2 + 1.00184 * Rv + 7.00127e-1,
   -4.45636e-5 * Rv ^ 4 + 7.97809e-4 * Rv ^ 3 - 5.46959e-3 * Rv ^ 2 +
     1.01707 * Rv + 1.19456]

/-- UV spline anchor abscissas `xspluv` (10000/2700 and 10000/2600). -/
def uv_xspluv : List ℝ := [10000.0 / 2700, 10000.0 / 2600]

/-- Model of the `k` array of `Fitzpatrick99.function`.  The source computes
`yspluv` from the UV formula, and the statement `yspluv += Rv` sits inside the
`if True in ind:` block, so the UV spline anchors receive the `+Rv` shift only
when some input point lies in the UV range — this cross-element dependence is
reproduced through `hasUV`. -/
def f99_k (spl : SplFn) (lamb : List ℝ) (Rv : ℝ) : List ℝ :=
  let x := lamb.map (fun l => 1e4 / l)
  let hasUV := x.any (fun xi => decide (xcutuv ≤ xi))
  let yspluv :=
    if hasUV then uv_xspluv.map (fun xu => f99_uv Rv xu + Rv)
    else uv_xspluv.map (fun xu => f99_uv Rv xu)
  let data := List.zip (f99_xsplopir ++ uv_xspluv) (f99_ysplopir Rv ++ yspluv)
  x.map (fun xi =>
    if xcutuv ≤ xi then
      f99_uv Rv xi + (if 5.9 ≤ xi then f99_fuv xi else 0) + Rv
    else spl data xi)

/-- Model of `Fitzpatrick99.function`: the `k` array is divided by `Rv`
(A(lambda)/E(B-V) to A(lambda)/A(V)) and the result is `k * Av` when `Alambda`
and `k * Av * (log(10) * 0.4)` otherwise. -/
def f99_function (spl : SplFn) (lamb : List ℝ) (Av Rv : ℝ)
    (Alambda : Bool) : List ℝ :=
  if Alambda then (f99_k spl lamb Rv).map (fun k => k / Rv * Av)
  else (f99_k spl lamb Rv).map (fun k => k / Rv * Av * (Real.log 10 * 0.4))

/-- UV branch value of `Gordon03_SMCBar.function` before the FUV correction
(with `c1 = -4.959/Rv`, `c2 = 2.264/Rv`, `c3 = 0.389/Rv`, `x0 = 4.6`,
`gamma = 1.0`). -/
def gordon_uv (Rv x : ℝ) : ℝ :=
  1.0 + -4.959 / Rv + (2.264 / Rv) * x +
    (0.389 / Rv) * x ^ 2 / ((x ^ 2 - 4.6 ^ 2) ^ 2 + 1.0 ^ 2 * x ^ 2)

/-- FUV correction of `Gordon03_SMCBar.function` (with `c4 = 0.461/Rv`). -/
def gordon_fuv (Rv x : ℝ) : ℝ :=
  (0.461 / Rv) * (0.5392 * (x - 5.9) ^ 2 + 0.05644 * (x - 5.9) ^ 3)

/-- Optical/NIR spline anchor abscissas of `Gordon03_SMCBar.function`. -/
def gordon_xsplopir : List ℝ :=
  [0, 1 / 2.198, 1 / 1.65, 1 / 1.25, 1 / 0.81, 1 / 0.65, 1 / 0.55,
   1 / 0.44, 1 / 0.37]

/-- Optical/NIR spline anchor ordinates of `Gordon03_SMCBar.function` (the
adjusted values from the source). -/
def gordon_ysplopir : List ℝ :=
  [0.0, 0.11, 0.169, 0.25, 0.567, 0.801, 1.00, 1.374, 1.672]

/-- Model of the `k` array of `Gordon03_SMCBar.function` at an already
resolved `Rv`.  Unlike Fitzpatrick99, `yspluv` is computed unconditionally,
and the guards `if np.size(ind) > 0:` only skip empty per-segment work, so the
computation is per-element. -/
def gordon_k (spl : SplFn) (lamb : List ℝ) (Rv : ℝ) : List ℝ :=
  let yspluv := uv_xspluv.map (fun xu => gordon_uv Rv xu)
  let data := List.zip (gordon_xsplopir ++ uv_xspluv) (gordon_ysplopir ++ yspluv)
  lamb.map (fun l =>
    if xcutuv ≤ 1e4 / l then
      gordon_uv Rv (1e4 / l) +
        (if 5.9 ≤ 1e4 / l then gordon_fuv Rv (1e4 / l) else 0)
    else spl data (1e4 / l))

/-- Model of the `Gordon03_SMCBar` instance state: its stored default `Rv`
attribute, set once at construction. -/
structure Gordon03_SMCBar where
  Rv : ℝ

/-- Model of `Gordon03_SMCBar()` built with the constructor's default argument
`Rv=2.74`. -/
def Gordon03_SMCBar.init : Gordon03_SMCBar := ⟨2.74⟩

/-- Model of `Gordon03_SMCBar.function` for an instance `g`: when the `Rv`
argument is `None` the stored instance attribute `g.Rv` is used; the result is
`k * Av` when `Alambda` and `k * Av * (log(10) * 0.4)` otherwise. -/
def gordon_function (spl : SplFn) (g : Gordon03_SMCBar) (lamb : List ℝ)
    (Av : ℝ) (Rv : Option ℝ) (Alambda : Bool) : List ℝ :=
  if Alambda then (gordon_k spl lamb (Rv.getD g.Rv)).map (fun k => k * Av)
  else (gordon_k spl lamb (Rv.getD g.Rv)).map
    (fun k => k * Av * (Real.log 10 * 0.4))

/-- Wavelength argument as accepted by every law: a bare scalar or a 1-d
array (already unit-stripped to angstrom magnitudes). -/
def LambInput : Type := ℝ ⊕ List ℝ

/-- Scalar-to-array normalisation performed at the top of every `function`
body: `if isinstance(_lamb, float): _lamb = np.asarray([_lamb])`. -/
def toArray : LambInput → List ℝ
  | Sum.inl s => [s]
  | Sum.inr l => l

/-- Numpy shape of the unit-stripped input: `()` for a scalar, `(n,)` for a
1-d array of length n. -/
def npShape : LambInput → List ℕ
  | Sum.inl _ => []
  | Sum.inr l => [l.length]

/-- Numpy shape of a returned 1-d array. -/
def outShape (out : List ℝ) : List ℕ := [out.length]

/-- Model of `Cardelli.function` on a scalar-or-array input. -/
def cardelli_evaluate (inp : LambInput) (Av Rv : ℝ) (Alambda : Bool) : List ℝ :=
  cardelli_function (toArray inp) Av Rv Alambda

/-- Model of `Calzetti.function` on a scalar-or-array input. -/
def calzetti_evaluate (inp : LambInput) (Av Rv : ℝ) (Alambda : Bool) : List ℝ :=
  calzetti_function (toArray inp) Av Rv Alambda

/-- Model of `Fitzpatrick99.function` on a scalar-or-array input. -/
def f99_evaluate (spl : SplFn) (inp : LambInput) (Av Rv : ℝ)
    (Alambda : Bool) : List ℝ :=
  f99_function spl (toArray inp) Av Rv Alambda

/-- Model of `Gordon03_SMCBar.function` on a scalar-or-array input. -/
def gordon_evaluate (spl : SplFn) (g : Gordon03_SMCBar) (inp : LambInput)
    (Av : ℝ) (Rv : Option ℝ) (Alambda : Bool) : List ℝ :=
  gordon_function spl g (toArray inp) Av Rv Alambda

/-- Cardelli instance viewed through the `Law` interface consumed by
`MixtureLaw`: the class defines no `Rv` attribute, so `getattr(law, 'Rv',
None)` yields `None`. -/
def cardelliLaw : Law := ⟨none, cardelli_function⟩

/-- Calzetti instance viewed through the `Law` interface (no `Rv`
attribute). -/
def calzettiLaw : Law := ⟨none, calzetti_function⟩

/-- Fitzpatrick99 instance viewed through the `Law` interface (no `Rv`
attribute); parametrised by the external spline evaluator. -/
def f99Law (spl : SplFn) : Law := ⟨none, f99_function spl⟩

/-- Default-constructed Gordon03_SMCBar instance viewed through the `Law`
interface: it owns the `Rv` attribute 2.74, and an explicit `Rv` passed by the
mixture overrides it. -/
def gordonLaw (spl : SplFn) : Law :=
  ⟨some 2.74, fun lamb Av Rv Alambda =>
    gordon_function spl Gordon03_SMCBar.init lamb Av (some Rv) Alambda⟩

/-! Shared auxiliary lemmas. -/

lemma log_ten_pos : 0 < Real.log 10 := Real.log_pos (by norm_num)

lemma log_ten_lt_five_halves : Real.log 10 < 2.5 := by
  rw [Real.log_lt_iff_lt_exp (by norm_num)]
  have h5 : (100 : ℝ) < Real.exp 5 := by
    have h := Real.exp_one_gt_d9
    have he : Real.exp 5 = Real.exp 1 ^ 5 := by
      rw [← Real.exp_nat_mul]; norm_num
    have hp : (2.7182818283 : ℝ) ^ 5 < Real.exp 1 ^ 5 :=
      pow_lt_pow_left₀ h (by norm_num) (by norm_num)
    have hc : (100 : ℝ) < (2.7182818283 : ℝ) ^ 5 := by norm_num
    linarith [he ▸ hp]
  have hsq : Real.exp 2.5 * Real.exp 2.5 = Real.exp 5 := by
    rw [← Real.exp_add]; norm_num
  nlinarith [Real.exp_pos (2.5 : ℝ), hsq, h5]

lemma cardelli_function_length (lamb : List ℝ) (Av Rv : ℝ) (Alambda : Bool) :
    (cardelli_function lamb Av Rv Alambda).length = lamb.length := by
  simp [cardelli_function]

lemma calzetti_function_length (lamb : List ℝ) (Av Rv : ℝ) (Alambda : Bool) :
    (calzetti_function lamb Av Rv Alambda).length = lamb.length := by
  cases Alambda <;> simp [calzetti_function, calzetti_k]

lemma f99_function_length (spl : SplFn) (lamb : List ℝ) (Av Rv : ℝ)
    (Alambda : Bool) :
    (f99_function spl lamb Av Rv Alambda).length = lamb.length := by
  cases Alambda <;> simp [f99_function, f99_k]

lemma gordon_function_length (spl : SplFn) (g : Gordon03_SMCBar)
    (lamb : List ℝ) (Av : ℝ) (Rv : Option ℝ) (Alambda : Bool) :
    (gordon_function spl g lamb Av Rv Alambda).length = lamb.length := by
  cases Alambda <;> simp [gordon_function, gordon_k]

lemma cardelli_a_out_of_range (x : ℝ) (h : x < 0.3 ∨ 10 < x) :
    cardelli_a x = 0 := by
  unfold cardelli_a
  rw [if_neg (by rintro ⟨h1, h2⟩; rcases h with h | h <;> linarith),
    if_neg (by rintro ⟨h1, h2⟩; rcases h with h | h <;> linarith),
    if_neg (by rintro ⟨h1, h2⟩; rcases h with h | h <;> linarith),
    if_neg (by rintro ⟨h1, h2⟩; rcases h with h | h <;> linarith)]

lemma cardelli_b_out_of_range (x : ℝ) (h : x < 0.3 ∨ 10 < x) :
    cardelli_b x = 0 := by
  unfold cardelli_b
  rw [if_neg (by rintro ⟨h1, h2⟩; rcases h with h | h <;> linarith),
    if_neg (by rintro ⟨h1, h2⟩; rcases h with h | h <;> linarith),
    if_neg (by rintro ⟨h1, h2⟩; rcases h with h | h <;> linarith),
    if_neg (by rintro ⟨h1, h2⟩; rcases h with h | h <;> linarith)]

/-- C1 (counterexample): the claimed relation
`Alambda_value = 0.4 * ln(10) * tau_value` between the `Alambda=True` and the
`Alambda=False` outputs fails on the code already for Cardelli at the concrete
input lamb = 10000 angstrom (wavenumber x = 1), Av = 1, Rv = 1: the code
instead multiplies the `Alambda=True` value by `0.4 * log(10)` to obtain the
`Alambda=False` value, so the claimed direction would force
`(0.4 * ln 10)^2 = 1`, which is false. -/
theorem alambda_relation_cex :
    ¬ (cardelli_function [10000] 1 1 true =
      (cardelli_function [10000] 1 1 false).map
        (fun v => 0.4 * Real.log 10 * v)) := by
  intro h
  have hx : (1e4 : ℝ) / 10000 = 1 := by norm_num
  have ha : cardelli_a 1 = 0.574 := by
    unfold cardelli_a
    rw [if_neg (by norm_num), if_neg (by norm_num), if_neg (by norm_num),
      if_pos (by norm_num), Real.one_rpow, mul_one]
  have hb : cardelli_b 1 = -0.527 := by
    unfold cardelli_b
    rw [if_neg (by norm_num), if_neg (by norm_num), if_neg (by norm_num),
      if_pos (by norm_num), Real.one_rpow, mul_one]
  simp only [cardelli_function, cardelli_point, List.map_cons, List.map_nil,
    if_pos, if_neg, Bool.false_eq_true, if_true, if_false, hx, ha, hb,
    List.cons.injEq, and_true] at h
  have hlog := log_ten_pos
  have hlog2 := log_ten_lt_five_halves
  nlinarith [h, hlog, hlog2]

/-- C1 (amended): for Cardelli, Fitzpatrick99 and Gordon03_SMCBar the two
evaluation modes satisfy `tau_value = 0.4 * ln(10) * Alambda_value` pointwise
(the claimed relation with the two results exchanged), while Calzetti satisfies
`Alambda_result = 0.4 * k` and `non_Alambda_result = 10 ** (0.4 * k)`
(equivalently `non_Alambda_result = 10 ** Alambda_result` pointwise). -/
theorem alambda_relation_amended (spl splG : SplFn) (g : Gordon03_SMCBar)
    (lamb : List ℝ) (Av Rv : ℝ) (RvOpt : Option ℝ) :
    cardelli_function lamb Av Rv false =
      (cardelli_function lamb Av Rv true).map
        (fun v => 0.4 * Real.log 10 * v) ∧
    f99_function spl lamb Av Rv false =
      (f99_function spl lamb Av Rv true).map
        (fun v => 0.4 * Real.log 10 * v) ∧
    gordon_function splG g lamb Av RvOpt false =
      (gordon_function splG g lamb Av RvOpt true).map
        (fun v => 0.4 * Real.log 10 * v) ∧
    calzetti_function lamb Av Rv true =
      (calzetti_k lamb Rv).map (fun k => 0.4 * k) ∧
    calzetti_function lamb Av Rv false =
      (calzetti_k lamb Rv).map (fun k => (10 : ℝ) ^ (0.4 * k)) ∧
    calzetti_function lamb Av Rv false =
      (calzetti_function lamb Av Rv true).map (fun v => (10 : ℝ) ^ v) := by
  refine ⟨?_, ?_, ?_, rfl, rfl, ?_⟩
  · simp only [cardelli_function, List.map_map]
    refine List.map_congr_left fun l _ => ?_
    simp only [Function.comp_apply, cardelli_point, Bool.false_eq_true,
      if_false, if_true]
    ring
  · simp only [f99_function, Bool.false_eq_true, if_false, if_true,
      List.map_map]
    refine List.map_congr_left fun k _ => ?_
    simp only [Function.comp_apply]
    ring
  · simp only [gordon_function, Bool.false_eq_true, if_false, if_true,
      List.map_map]
    refine List.map_congr_left fun k _ => ?_
    simp only [Function.comp_apply]
    ring
  · simp only [calzetti_function, Bool.false_eq_true, if_false, if_true,
      List.map_map]
    rfl

/-- C6: for every wavelength whose wavenumber `x = 1e4 / lamb` lies outside
[0.3, 10.0], `Cardelli.function` returns extinction exactly 0 at that point,
for both values of `Alambda` and every Av and Rv, because the coefficients
`a` and `b` are zero there. -/
theorem cardelli_out_of_range_zero (lamb Av Rv : ℝ) (Alambda : Bool)
    (h : 1e4 / lamb < 0.3 ∨ 10 < 1e4 / lamb) :
    cardelli_a (1e4 / lamb) = 0 ∧ cardelli_b (1e4 / lamb) = 0 ∧
    cardelli_point lamb Av Rv Alambda = 0 ∧
    cardelli_function [lamb] Av Rv Alambda = [0] := by
  have ha := cardelli_a_out_of_range _ h
  have hb := cardelli_b_out_of_range _ h
  refine ⟨ha, hb, ?_, ?_⟩ <;>
    cases Alambda <;> simp [cardelli_function, cardelli_point, ha, hb]

/-- Witness for C6 at the concrete wavelength 1e6/29 angstrom, i.e. wavenumber
x = 0.29, just below the infrared edge of the Cardelli support. -/
theorem cardelli_out_of_range_zero_witness :
    ((1e4 / (1000000 / 29 : ℝ) < 0.3 ∨ 10 < 1e4 / (1000000 / 29 : ℝ)) ∧
      cardelli_point (1000000 / 29) 1 3.1 true = 0 ∧
      cardelli_function [1000000 / 29] 1 3.1 true = [0]) := by
  have h : 1e4 / (1000000 / 29 : ℝ) < 0.3 ∨ 10 < 1e4 / (1000000 / 29 : ℝ) :=
    Or.inl (by norm_num)
  have hc := cardelli_out_of_range_zero (1000000 / 29) 1 3.1 true h
  exact ⟨h, hc.2.2.1, hc.2.2.2⟩

/-- C9: `Gordon03_SMCBar()` stores R(V) = 2.74 by default at construction, and
for every wavelength input (scalar or array), Av and Alambda flag, calling its
`function` without an explicit Rv (`Rv=None`) produces exactly the same output
as calling it with `Rv=2.74` explicitly. -/
theorem gordon_default_rv :
    Gordon03_SMCBar.init.Rv = 2.74 ∧
    ∀ (spl : SplFn) (inp : LambInput) (Av : ℝ) (Alambda : Bool),
      gordon_evaluate spl Gordon03_SMCBar.init inp Av none Alambda =
        gordon_evaluate spl Gordon03_SMCBar.init inp Av (some 2.74) Alambda :=
  ⟨rfl, fun _ _ _ _ => rfl⟩

/-- C10: the result of `Calzetti.function` is independent of the `Av`
argument: for every wavelength input, Rv and Alambda flag, any two values of
Av give equal outputs (the parameter is accepted but never used), whereas the
other three laws scale their pointwise result linearly by Av. -/
theorem calzetti_av_independent (spl splG : SplFn) (g : Gordon03_SMCBar)
    (inp : LambInput) (Rv Av1 Av2 Av : ℝ) (RvOpt : Option ℝ)
    (Alambda : Bool) (lamb : List ℝ) :
    calzetti_evaluate inp Av1 Rv Alambda = calzetti_evaluate inp Av2 Rv Alambda ∧
    cardelli_function lamb Av Rv Alambda =
      (cardelli_function lamb 1 Rv Alambda).map (fun v => v * Av) ∧
    f99_function spl lamb Av Rv Alambda =
      (f99_function spl lamb 1 Rv Alambda).map (fun v => v * Av) ∧
    gordon_function splG g lamb Av RvOpt Alambda =
      (gordon_function splG g lamb 1 RvOpt Alambda).map (fun v => v * Av) := by
  refine ⟨rfl, ?_, ?_, ?_⟩
  · simp only [cardelli_function, List.map_map]
    refine List.map_congr_left fun l _ => ?_
    cases Alambda <;> simp only [Function.comp_apply, cardelli_point,
      Bool.false_eq_true, if_false, if_true] <;> ring
  · cases Alambda <;>
      simp only [f99_function, Bool.false_eq_true, if_false, if_true,
        List.map_map] <;>
      exact List.map_congr_left fun k _ => by simp only [Function.comp_apply]; ring
  · cases Alambda <;>
      simp only [gordon_function, Bool.false_eq_true, if_false, if_true,
        List.map_map] <;>
      exact List.map_congr_left fun k _ => by simp only [Function.comp_apply]; ring

/-- C4: for every triple (Rv, Rv_A, Rv_B) and fraction f_A satisfying
`1/Rv = f_A/Rv_A + (1-f_A)/Rv_B` with all denominators nonzero (Rv, Rv_A,
Rv_B nonzero and f_A distinct from 0 and 1, so that none of the divisions in
the three formulas is by zero), the helpers `get_Rv`, `get_Rv_A`, `get_Rv_B`
are mutually inverse: applying each to the other two values of the triple
reproduces the third exactly. -/
theorem get_Rv_mutually_inverse (Rv f_A Rv_A Rv_B : ℝ)
    (hrel : 1 / Rv = f_A / Rv_A + (1 - f_A) / Rv_B)
    (hRv : Rv ≠ 0) (hA : Rv_A ≠ 0) (hB : Rv_B ≠ 0)
    (hf0 : f_A ≠ 0) (hf1 : f_A ≠ 1) :
    get_Rv Rv_A f_A Rv_B = Rv ∧ get_Rv_A Rv f_A Rv_B = Rv_A ∧
      get_Rv_B Rv Rv_A f_A = Rv_B := by
  have hf1' : 1 - f_A ≠ 0 := sub_ne_zero.mpr (Ne.symm hf1)
  refine ⟨?_, ?_, ?_⟩
  · unfold get_Rv
    rw [← hrel, one_div_one_div]
  · unfold get_Rv_A
    have hd : 1 / (Rv * f_A) - (1 - f_A) / (f_A * Rv_B) = 1 / Rv_A := by
      rw [← div_div, hrel]
      field_simp
      ring
    rw [hd, one_div_one_div]
  · unfold get_Rv_B
    have hd : 1 / Rv - f_A / Rv_A = (1 - f_A) / Rv_B := by
      field_simp
      field_simp at hrel
      linear_combination hrel
    rw [hd, div_div_eq_mul_div, mul_comm, mul_div_assoc, div_self hf1',
      mul_one]

/-- Witness for C4 at the concrete triple Rv = 3, Rv_A = 2, Rv_B = 6 with
f_A = 1/2 (which satisfies 1/3 = (1/2)/2 + (1/2)/6). -/
theorem get_Rv_mutually_inverse_witness :
    (1 / (3 : ℝ) = (1 / 2) / 2 + (1 - 1 / 2) / 6 ∧ (3 : ℝ) ≠ 0 ∧
      (2 : ℝ) ≠ 0 ∧ (6 : ℝ) ≠ 0 ∧ (1 / 2 : ℝ) ≠ 0 ∧ (1 / 2 : ℝ) ≠ 1) ∧
    (get_Rv 2 (1 / 2) 6 = 3 ∧ get_Rv_A 3 (1 / 2) 6 = 2 ∧
      get_Rv_B 3 2 (1 / 2) = 6) :=
  ⟨⟨by norm_num, by norm_num, by norm_num, by norm_num, by norm_num,
      by norm_num⟩,
    get_Rv_mutually_inverse 3 (1 / 2) 2 6 (by norm_num) (by norm_num)
      (by norm_num) (by norm_num) (by norm_num) (by norm_num)⟩

/-- C3: `MixtureLaw.function` raises
`ValueError('Must provide at least 2 Rv values')` exactly when fewer than two
of {Rv, Rv_A, Rv_B} are resolvable (an explicit argument, or for Rv_A/Rv_B the
component law's own default Rv attribute), and returns a value exactly when at
least two are resolvable — the missing one being derived, with no such error
raised. -/
theorem mixture_function_valueerror_iff (A B : Law) (lamb : List ℝ) (Av : ℝ)
    (Rv_A : Option ℝ) (Alambda : Bool) (f_A : ℝ) (Rv_B Rv : Option ℝ) :
    (mixtureFunction A B lamb Av Rv_A Alambda f_A Rv_B Rv =
        Except.error (PyErr.valueError "Must provide at least 2 Rv values") ↔
      resolvableRvCount A B Rv_A Rv_B Rv < 2) ∧
    ((∃ out, mixtureFunction A B lamb Av Rv_A Alambda f_A Rv_B Rv =
        Except.ok out) ↔ 2 ≤ resolvableRvCount A B Rv_A Rv_B Rv) := by
  rcases hA : resolveOpt Rv_A A.RvDefault with _ | a <;>
    rcases hB : resolveOpt Rv_B B.RvDefault with _ | b <;>
    rcases hR : Rv with _ | r <;>
    simp [mixtureFunction, resolvableRvCount, hA, hB, hR]

/-- C5: `MixtureLaw.isvalid` returns True exactly when the R(V) triple is
resolvable (at least two of {Rv, Rv_A, Rv_B} known, directly or via a
component law's default Rv attribute, the third being derived), `f_A` lies in
[0, 1] and all three resolved R(V) values lie in [2.0, 6.0]; in particular it
returns True for Rv = Rv_A = Rv_B = 3.1 with f_A = 0.5. -/
theorem mixture_isvalid_iff :
    (∀ (A B : Law) (Av : Option ℝ) (Rv : Option ℝ) (f_A : ℝ)
        (Rv_A Rv_B : Option ℝ),
      (mixtureIsvalid A B Av Rv f_A Rv_A Rv_B = true ↔
        ∃ a b r, resolveRvTriple A B Rv f_A Rv_A Rv_B = some (a, b, r) ∧
          (0 ≤ f_A ∧ f_A ≤ 1) ∧ (2 ≤ a ∧ a ≤ 6) ∧ (2 ≤ b ∧ b ≤ 6) ∧
          (2 ≤ r ∧ r ≤ 6)) ∧
      ((resolveRvTriple A B Rv f_A Rv_A Rv_B).isSome = true ↔
        2 ≤ resolvableRvCount A B Rv_A Rv_B Rv)) ∧
    mixtureIsvalid cardelliLaw cardelliLaw none (some 3.1) 0.5 (some 3.1)
      (some 3.1) = true := by
  constructor
  · intro A B Av Rv f_A Rv_A Rv_B
    constructor
    · rcases hA : resolveOpt Rv_A A.RvDefault with _ | a <;>
        rcases hB : resolveOpt Rv_B B.RvDefault with _ | b <;>
        rcases hR : Rv with _ | r <;>
        simp [mixtureIsvalid, resolveRvTriple, rvRangeCheck, hA, hB, hR,
          and_assoc] <;> tauto
    · rcases hA : resolveOpt Rv_A A.RvDefault with _ | a <;>
        rcases hB : resolveOpt Rv_B B.RvDefault with _ | b <;>
        rcases hR : Rv with _ | r <;>
        simp [resolveRvTriple, resolvableRvCount, hA, hB, hR]
  · simp only [mixtureIsvalid, cardelliLaw, resolveOpt, rvRangeCheck,
      decide_eq_true_eq]
    norm_num

lemma zipWith_weight_one (l1 l2 : List ℝ) (h : l1.length ≤ l2.length) :
    List.zipWith (fun u v => 1 * u + (1 - 1) * v) l1 l2 = l1 := by
  induction l1 generalizing l2 with
  | nil => simp
  | cons x xs ih =>
    cases l2 with
    | nil => simp at h
    | cons y ys =>
      simp only [List.zipWith_cons_cons, List.cons.injEq]
      exact ⟨by ring, ih ys (by simpa using h)⟩

lemma zipWith_weight_zero (l1 l2 : List ℝ) (h : l2.length ≤ l1.length) :
    List.zipWith (fun u v => 0 * u + (1 - 0) * v) l1 l2 = l2 := by
  induction l1 generalizing l2 with
  | nil => cases l2 with
    | nil => simp
    | cons y ys => simp at h
  | cons x xs ih =>
    cases l2 with
    | nil => simp
    | cons y ys =>
      simp only [List.zipWith_cons_cons, List.cons.injEq]
      exact ⟨by ring, ih ys (by simpa using h)⟩

/-- C2 (counterexample): composing a law with a non-law-capable object does
fail, but with a `ValueError` ('Expecting ExtinctionLaw instances' from
`MixtureLaw.__init__`), not with a `TypeError` as claimed: concretely,
`Cardelli() + 3` raises an exception that is not a TypeError. -/
theorem law_add_valueerror_cex :
    isRaised (ExtinctionLaw.add ⟨PyClass.cardelli, "Cardelli"⟩
        ⟨PyClass.intClass, "int"⟩) = true ∧
    isTypeError (ExtinctionLaw.add ⟨PyClass.cardelli, "Cardelli"⟩
        ⟨PyClass.intClass, "int"⟩) = false ∧
    ExtinctionLaw.add ⟨PyClass.cardelli, "Cardelli"⟩ ⟨PyClass.intClass, "int"⟩ =
      Except.error (PyErr.valueError "Expecting ExtinctionLaw instances") :=
  ⟨rfl, rfl, rfl⟩

/-- C2 (amended): for every pair of operands, `lawA + lawB` returns a new
MixtureLaw with A = lawA, B = lawB (and the composed name) when both operands
are ExtinctionLaw-capable, and fails with a value error
(`ValueError('Expecting ExtinctionLaw instances')`), not a type error, when
either operand is not. -/
theorem law_add_spec (a b : PyObj) :
    (isNestedInstance a PyClass.extinctionLaw = true →
      isNestedInstance b PyClass.extinctionLaw = true →
      ExtinctionLaw.add a b =
        Except.ok ⟨a, b, "(" ++ a.name ++ ", " ++ b.name ++ ")"⟩) ∧
    ((isNestedInstance a PyClass.extinctionLaw = false ∨
        isNestedInstance b PyClass.extinctionLaw = false) →
      ExtinctionLaw.add a b =
        Except.error (PyErr.valueError "Expecting ExtinctionLaw instances")) := by
  constructor
  · intro ha hb
    simp [ExtinctionLaw.add, MixtureLaw.init, ha, hb]
  · rintro (ha | hb)
    · simp [ExtinctionLaw.add, MixtureLaw.init, ha]
    · simp [ExtinctionLaw.add, MixtureLaw.init, hb]

/-- Witness for C2 at concrete operands: a Cardelli and a Gordon03_SMCBar
instance compose into the expected mixture, and a Cardelli with the integer 3
raises the value error. -/
theorem law_add_spec_witness :
    ExtinctionLaw.add ⟨PyClass.cardelli, "Cardelli"⟩
        ⟨PyClass.gordon03SMCBar, "Gordon et al. 2003 SMCBar"⟩ =
      Except.ok ⟨⟨PyClass.cardelli, "Cardelli"⟩,
        ⟨PyClass.gordon03SMCBar, "Gordon et al. 2003 SMCBar"⟩,
        "(Cardelli, Gordon et al. 2003 SMCBar)"⟩ ∧
    ExtinctionLaw.add ⟨PyClass.cardelli, "Cardelli"⟩
        ⟨PyClass.intClass, "int"⟩ =
      Except.error (PyErr.valueError "Expecting ExtinctionLaw instances") :=
  ⟨(law_add_spec ⟨PyClass.cardelli, "Cardelli"⟩
      ⟨PyClass.gordon03SMCBar, "Gordon et al. 2003 SMCBar"⟩).1 rfl rfl,
    (law_add_spec ⟨PyClass.cardelli, "Cardelli"⟩
      ⟨PyClass.intClass, "int"⟩).2 (Or.inr rfl)⟩

/-- C7 (counterexample): the degeneracy
`MixtureLaw(A, B).function(lamb, f_A=1.0, Rv_A=X) == A.function(lamb, Rv=X)`
does not hold for every pair of laws: with A = B = Cardelli (which owns no
default Rv attribute), only one of the three R(V) values is resolvable, so the
mixture call raises `ValueError('Must provide at least 2 Rv values')` instead
of returning A's value. -/
theorem mixture_pure_a_cex :
    mixtureFunction cardelliLaw cardelliLaw [5500] 1 (some 3.1) true 1 none
        none =
      Except.error (PyErr.valueError "Must provide at least 2 Rv values") ∧
    ¬ (mixtureFunction cardelliLaw cardelliLaw [5500] 1 (some 3.1) true 1 none
        none = Except.ok (cardelliLaw.f [5500] 1 3.1 true)) := by
  have h : mixtureFunction cardelliLaw cardelliLaw [5500] 1 (some 3.1) true 1
      none none =
      Except.error (PyErr.valueError "Must provide at least 2 Rv values") := by
    simp [mixtureFunction, resolveOpt, cardelliLaw]
  exact ⟨h, by simp [h]⟩

/-- C7 (amended): the mixture degenerates as claimed whenever the call does
not raise, each direction needing only its own R(V) to be resolvable: if B's
default Rv attribute resolves the second value (and the component outputs have
the input's length), `MixtureLaw(A,B).function(lamb, f_A=1.0, Rv_A=X)` equals
`A.function(lamb, Rv=X)`; symmetrically, if A's default Rv attribute resolves,
`MixtureLaw(A,B).function(lamb, f_A=0.0, Rv_B=X)` equals
`B.function(lamb, Rv=X)`. -/
theorem mixture_degenerate_pure (A B : Law) (lamb : List ℝ) (Av X ra rb : ℝ)
    (Alambda : Bool) :
    (B.RvDefault = some rb →
      (A.f lamb Av X Alambda).length = lamb.length →
      (B.f lamb Av rb Alambda).length = lamb.length →
      mixtureFunction A B lamb Av (some X) Alambda 1 none none =
        Except.ok (A.f lamb Av X Alambda)) ∧
    (A.RvDefault = some ra →
      (A.f lamb Av ra Alambda).length = lamb.length →
      (B.f lamb Av X Alambda).length = lamb.length →
      mixtureFunction A B lamb Av none Alambda 0 (some X) none =
        Except.ok (B.f lamb Av X Alambda)) := by
  constructor
  · intro hB hlA hlB
    simp only [mixtureFunction, resolveOpt, hB]
    rw [zipWith_weight_one _ _ (by rw [hlA, hlB])]
  · intro hA hlA hlB
    simp only [mixtureFunction, resolveOpt, hA]
    rw [zipWith_weight_zero _ _ (by rw [hlA, hlB])]

lemma gordonLaw_f_length (spl : SplFn) (lamb : List ℝ) (Av Rv : ℝ)
    (Alambda : Bool) :
    ((gordonLaw spl).f lamb Av Rv Alambda).length = lamb.length := by
  simp only [gordonLaw]
  exact gordon_function_length spl Gordon03_SMCBar.init lamb Av (some Rv)
    Alambda

lemma f99Law_f_length (spl : SplFn) (lamb : List ℝ) (Av Rv : ℝ)
    (Alambda : Bool) :
    ((f99Law spl).f lamb Av Rv Alambda).length = lamb.length := by
  simp only [f99Law]
  exact f99_function_length spl lamb Av Rv Alambda

/-- Witness for C7 at the spec's own example mixture,
`Fitzpatrick99() + Gordon03_SMCBar()` (a trivial spline evaluator standing in
for scipy), at lamb = [5500], Av = 1, X = 3.1: the f_A = 1 direction needs
only Gordon's default Rv attribute 2.74, Fitzpatrick99 having none; the
f_A = 0 direction is exercised with the components swapped. -/
theorem mixture_degenerate_pure_witness :
    ((gordonLaw (fun _ _ => 0)).RvDefault = some 2.74 ∧
      mixtureFunction (f99Law (fun _ _ => 0)) (gordonLaw (fun _ _ => 0))
          [5500] 1 (some 3.1) true 1 none none =
        Except.ok ((f99Law (fun _ _ => 0)).f [5500] 1 3.1 true)) ∧
    mixtureFunction (gordonLaw (fun _ _ => 0)) (f99Law (fun _ _ => 0))
        [5500] 1 none true 0 (some 3.1) none =
      Except.ok ((f99Law (fun _ _ => 0)).f [5500] 1 3.1 true) :=
  ⟨⟨rfl,
    (mixture_degenerate_pure (f99Law (fun _ _ => 0)) (gordonLaw (fun _ _ => 0))
        [5500] 1 3.1 0 2.74 true).1 rfl
      (f99Law_f_length _ _ _ _ _) (gordonLaw_f_length _ _ _ _ _)⟩,
    (mixture_degenerate_pure (gordonLaw (fun _ _ => 0)) (f99Law (fun _ _ => 0))
        [5500] 1 3.1 2.74 0 true).2 rfl
      (gordonLaw_f_length _ _ _ _ _) (f99Law_f_length _ _ _ _ _)⟩

/-- C8 (counterexample): for a scalar wavelength input the output is a
one-element array (numpy shape (1,)), not a scalar (numpy shape ()), so the
output does not have exactly the shape of the unit-stripped input:
Cardelli at the scalar 5500 angstrom. -/
theorem output_shape_scalar_cex :
    outShape (cardelli_evaluate (Sum.inl 5500) 1 3.1 true) ≠
      npShape (Sum.inl 5500) := by
  simp [outShape, npShape, cardelli_evaluate, toArray,
    cardelli_function_length]

/-- C8 (amended): for every concrete law, an array input produces an output
array of exactly the input's shape, while a scalar input produces a
one-element output array (shape (1,), not a scalar). -/
theorem output_shape_preserved (spl splG : SplFn) (g : Gordon03_SMCBar)
    (l : List ℝ) (s Av Rv : ℝ) (RvOpt : Option ℝ) (Alambda : Bool) :
    (outShape (cardelli_evaluate (Sum.inr l) Av Rv Alambda) =
        npShape (Sum.inr l) ∧
      (cardelli_evaluate (Sum.inl s) Av Rv Alambda).length = 1) ∧
    (outShape (calzetti_evaluate (Sum.inr l) Av Rv Alambda) =
        npShape (Sum.inr l) ∧
      (calzetti_evaluate (Sum.inl s) Av Rv Alambda).length = 1) ∧
    (outShape (f99_evaluate spl (Sum.inr l) Av Rv Alambda) =
        npShape (Sum.inr l) ∧
      (f99_evaluate spl (Sum.inl s) Av Rv Alambda).length = 1) ∧
    (outShape (gordon_evaluate splG g (Sum.inr l) Av RvOpt Alambda) =
        npShape (Sum.inr l) ∧
      (gordon_evaluate splG g (Sum.inl s) Av RvOpt Alambda).length = 1) := by
  refine ⟨⟨?_, ?_⟩, ⟨?_, ?_⟩, ⟨?_, ?_⟩, ⟨?_, ?_⟩⟩ <;>
    simp [outShape, npShape, toArray, cardelli_evaluate, calzetti_evaluate,
      f99_evaluate, gordon_evaluate, cardelli_function_length,
      calzetti_function_length, f99_function_length, gordon_function_length]

end


